import Mathlib

/-!
Verification of the audiolink-fx-pro real-time audio engine.

The embedding below is a shallow model of the engine class defined in
src/unnamed/part_001 (the current engine revision; src/services/audioEngine.ts
is an earlier revision of the same class whose updateParameters, setInputDevice,
getLevels, playTestTone and buildImpulseResponse bodies are identical to the
ones modelled here).  Web Audio nodes are modelled by their control state:
an AudioParam keeps the immediately assigned value and the last smoothing
target handed to setTargetAtTime; the node graph is an explicit edge list;
HTMLAudioElement sinks are modelled by their muted flag and sinkId; browser
capability probes ('setSinkId' in ...) and the Math.random stream are an
explicit environment.  All numeric state is ℚ.
-/

namespace AudioLink

/-- Control state of one Web Audio AudioParam: `value` is the last direct
`param.value = x` assignment, `target` the last `setTargetAtTime` target. -/
structure AudioParam where
  value : ℚ
  target : ℚ
deriving DecidableEq, Repr

/-- Model of `param.setTargetAtTime(tgt, now, timeConstant)`: the automation
start time and time constant shape the glide, not the final target, so only
the target is recorded. -/
def AudioParam.setTargetAtTime (p : AudioParam) (tgt _now _timeConstant : ℚ) : AudioParam :=
  { p with target := tgt }

/-- Model of `param.value = x` on a freshly created node. -/
def AudioParam.atValue (x : ℚ) : AudioParam :=
  { value := x, target := x }

/-- The nodes of the fixed signal graph built by init() in
src/unnamed/part_001 (main context and monitor context nodes together;
the two contexts share no edges). -/
inductive Node where
  | inputGain
  | masterGain
  | mainOutputGain
  | inputAnalyzer
  | outputAnalyzer
  | convolver
  | reverbGain
  | delayNode
  | delayFeedback
  | delayWetGain
  | destinationNode
  | contextDestination
  | monitorSourceNode
  | monitorGain
  | monitorDestination
deriving DecidableEq, Repr

/-- `a.connect(b)` appends a directed edge. -/
def connect (edges : List (Node × Node)) (a b : Node) : List (Node × Node) :=
  edges ++ [(a, b)]

/-- `a.disconnect()` with no argument removes every outgoing edge of `a`. -/
def disconnectAll (edges : List (Node × Node)) (a : Node) : List (Node × Node) :=
  edges.filter (fun e => e.1 ≠ a)

/-- The impulse buffer produced by buildImpulseResponse: channel data are
total functions; indices at or beyond `length` read the zero fill of a fresh
Float32Array. -/
structure AudioBufferModel where
  numberOfChannels : ℕ
  length : ℕ
  sampleRate : ℕ
  channel0 : ℕ → ℚ
  channel1 : ℕ → ℚ

/-- The reverb envelope at sample `i`: `Math.pow(1 - i / length, decay)`
(src/unnamed/part_001 line 303).  The call site fixes decay = 2.0, so the
real power is the natural power 2. -/
def impulseEnvelope (length : ℕ) (decay : ℕ) (i : ℕ) : ℚ :=
  (1 - (i : ℚ) / (length : ℚ)) ^ decay

/-- Embedding of buildImpulseResponse(duration, decay)
(src/unnamed/part_001 lines 296-308), called once from init() with
duration = 2.0 and decay = 2.0.  `rand` is the stream of successive
Math.random() results; iteration `i` of the fill loop draws `rand (2*i)`
for the left channel and then `rand (2*i+1)` for the right channel, so the
two channels use disjoint draws. -/
def buildImpulseResponse (rand : ℕ → ℚ) (rate : ℕ) (duration decay : ℕ) : AudioBufferModel :=
  let length := rate * duration
  { numberOfChannels := 2
    length := length
    sampleRate := rate
    channel0 := fun i =>
      if i < length then (rand (2 * i) * 2 - 1) * impulseEnvelope length decay i else 0
    channel1 := fun i =>
      if i < length then (rand (2 * i + 1) * 2 - 1) * impulseEnvelope length decay i else 0 }

/-- Input channel routing mode (src/types.ts). -/
inductive InputChannelMode where
  | left
  | right
  | mix
deriving DecidableEq, Repr

/-- The EffectParams snapshot (src/types.ts). -/
structure EffectParams where
  reverbMix : ℚ
  reverbDecay : ℚ
  delayTime : ℚ
  delayFeedback : ℚ
  delayMix : ℚ
  masterGain : ℚ
  inputGain : ℚ
  inputGain2 : ℚ
  inputPan : ℚ
  inputPan2 : ℚ
  inputChannelMode : InputChannelMode
  inputChannelMode2 : InputChannelMode
  isMuted : Bool
  monitoringEnabled : Bool
deriving DecidableEq, Repr

/-- The browser-supplied environment: the hardware sample rate of the
contexts, the Math.random stream, and the results of the four
`'setSinkId' in ...` capability probes the engine performs. -/
structure Env where
  sampleRate : ℕ
  rand : ℕ → ℚ
  contextSinkSupported : Bool
  monitorContextSinkSupported : Bool
  outputElemSinkSupported : Bool
  monitorElemSinkSupported : Bool

/-- Mutable state of the AudioEngine class (src/unnamed/part_001 lines 3-29).
Nullable node fields are Options; the two HTMLAudioElement sinks are fields
of the state (they always exist, the constructor creates them). -/
structure Engine where
  contextCreated : Bool
  monitorContextCreated : Bool
  initDone : Bool
  isMonitoringViaContext : Bool
  monitoringEnabled : Bool
  inputGain : Option AudioParam
  masterGain : Option AudioParam
  mainOutputGain : Option AudioParam
  reverbGain : Option AudioParam
  delayTime : Option AudioParam
  delayFeedback : Option AudioParam
  delayWetGain : Option AudioParam
  monitorGain : Option AudioParam
  inputAnalyzerCreated : Bool
  outputAnalyzerCreated : Bool
  convolverBuffer : Option AudioBufferModel
  edges : List (Node × Node)
  outputElemMuted : Bool
  monitorElemMuted : Bool
  outputElemSink : Option String
  monitorElemSink : Option String
  contextSink : Option String
  monitorContextSink : Option String
  inputStream : Option String
  sourceNodeCreated : Bool
  testTones : List (ℚ × ℚ)

/-- The constructor result (src/unnamed/part_001 lines 31-41): both audio
elements exist, the monitor element starts muted (line 39), the main output
element keeps the HTMLAudioElement default muted = false; the field defaults
of lines 27-29 give initDone = false, isMonitoringViaContext = true,
monitoringEnabled = false. -/
def initialEngine : Engine where
  contextCreated := false
  monitorContextCreated := false
  initDone := false
  isMonitoringViaContext := true
  monitoringEnabled := false
  inputGain := none
  masterGain := none
  mainOutputGain := none
  reverbGain := none
  delayTime := none
  delayFeedback := none
  delayWetGain := none
  monitorGain := none
  inputAnalyzerCreated := false
  outputAnalyzerCreated := false
  convolverBuffer := none
  edges := []
  outputElemMuted := false
  monitorElemMuted := true
  outputElemSink := none
  monitorElemSink := none
  contextSink := none
  monitorContextSink := none
  inputStream := none
  sourceNodeCreated := false
  testTones := []

/-- The edges wired by init() (src/unnamed/part_001 lines 96-122), in the
order of the connect calls: monitorGain→monitorDestination (96),
monitorSourceNode→monitorGain (100), then the main-context graph of lines
103-122.  The fan-out's hardware-bound edge stops at mainOutputGain; the
edge mainOutputGain→contextDestination is only made by setOutputDevice. -/
def initEdges : List (Node × Node) :=
  [ (.monitorGain, .monitorDestination)
  , (.monitorSourceNode, .monitorGain)
  , (.inputGain, .inputAnalyzer)
  , (.inputGain, .masterGain)
  , (.inputGain, .convolver)
  , (.convolver, .reverbGain)
  , (.reverbGain, .masterGain)
  , (.inputGain, .delayNode)
  , (.delayNode, .delayFeedback)
  , (.delayFeedback, .delayNode)
  , (.delayNode, .delayWetGain)
  , (.delayWetGain, .masterGain)
  , (.masterGain, .outputAnalyzer)
  , (.outputAnalyzer, .mainOutputGain)
  , (.outputAnalyzer, .destinationNode) ]

/-- Embedding of init() (src/unnamed/part_001 lines 43-131).  Re-entry is a
no-op (line 44).  Every effect gain is created and assigned value 0
(inputGain 53, masterGain 62, reverbGain 77, delayFeedback 82,
delayWetGain 85, monitorGain 95); mainOutputGain is assigned 1.0 (line 65);
delayTime of createDelay(5.0) starts at 0; the convolver buffer is built by
buildImpulseResponse(2.0, 2.0) (line 74); the graph is wired per initEdges
and the legacy main-output element is muted (line 128). -/
def Engine.init (env : Env) (s : Engine) : Engine :=
  if s.initDone then s
  else
    { s with
      contextCreated := true
      monitorContextCreated := true
      initDone := true
      inputGain := some (AudioParam.atValue 0)
      masterGain := some (AudioParam.atValue 0)
      mainOutputGain := some (AudioParam.atValue 1)
      reverbGain := some (AudioParam.atValue 0)
      delayTime := some (AudioParam.atValue 0)
      delayFeedback := some (AudioParam.atValue 0)
      delayWetGain := some (AudioParam.atValue 0)
      monitorGain := some (AudioParam.atValue 0)
      inputAnalyzerCreated := true
      outputAnalyzerCreated := true
      convolverBuffer := some (buildImpulseResponse env.rand env.sampleRate 2 2)
      edges := initEdges
      outputElemMuted := true }

/-- Embedding of setMonitoringEnabled(enabled)
(src/unnamed/part_001 lines 229-242): store the flag; drive the monitor
gain, when present, toward 1 only if enabled and the direct (context)
mechanism is active, else toward 0 (line 235); the legacy monitor element
is unmuted only if enabled and the fallback mechanism is active
(line 240). -/
def Engine.setMonitoringEnabled (s : Engine) (enabled : Bool) : Engine :=
  let s1 := { s with monitoringEnabled := enabled }
  let tgt : ℚ := if enabled && s1.isMonitoringViaContext then 1 else 0
  let s2 :=
    match s1.monitorGain with
    | some g => { s1 with monitorGain := some (g.setTargetAtTime tgt 0 (1 / 100)) }
    | none => s1
  { s2 with monitorElemMuted := !enabled || s2.isMonitoringViaContext }

/-- Embedding of setMonitoringDevice(deviceId)
(src/unnamed/part_001 lines 199-227): a no-op before the monitor context
exists (line 200); the direct context retarget is attempted first and on
support records the direct mechanism and mutes the legacy element (lines
204-208); otherwise the fallback mechanism is recorded and the legacy
element's sink is set when it supports setSinkId (lines 209-219); finally
the stored monitoringEnabled state is re-applied under the new mechanism
(line 222). -/
def Engine.setMonitoringDevice (s : Engine) (env : Env) (id : String) : Engine :=
  if s.monitorContextCreated then
    let s1 :=
      if env.monitorContextSinkSupported then
        { s with
          monitorContextSink := some id
          isMonitoringViaContext := true
          monitorElemMuted := true }
      else
        let s' := { s with isMonitoringViaContext := false }
        if env.monitorElemSinkSupported then { s' with monitorElemSink := some id } else s'
    s1.setMonitoringEnabled s1.monitoringEnabled
  else s

/-- Embedding of setOutputDevice(deviceId)
(src/unnamed/part_001 lines 170-197): a no-op before init (line 171); the
direct context retarget is attempted first and on support reconnects the
hardware-bound edge to the context destination and mutes the legacy element
(lines 175-182); otherwise the direct edge is disconnected, the legacy
element unmuted, and its sink set when it supports setSinkId
(lines 184-193). -/
def Engine.setOutputDevice (s : Engine) (env : Env) (id : String) : Engine :=
  if s.contextCreated && s.mainOutputGain.isSome then
    if env.contextSinkSupported then
      { s with
        contextSink := some id
        edges := connect (disconnectAll s.edges .mainOutputGain) .mainOutputGain .contextDestination
        outputElemMuted := true }
    else
      let s' := { s with
        edges := disconnectAll s.edges .mainOutputGain
        outputElemMuted := false }
      if env.outputElemSinkSupported then { s' with outputElemSink := some id } else s'
  else s

/-- Embedding of updateParameters(params)
(src/unnamed/part_001 lines 263-278): a no-op before init; otherwise each
present stage glides to its target with setTargetAtTime and time constant
0.05, the master target folding isMuted in (line 271). -/
def Engine.updateParameters (s : Engine) (p : EffectParams) : Engine :=
  if s.contextCreated then
    { s with
      inputGain := s.inputGain.map (·.setTargetAtTime p.inputGain 0 (1 / 20))
      masterGain := s.masterGain.map
        (·.setTargetAtTime (if p.isMuted then 0 else p.masterGain) 0 (1 / 20))
      reverbGain := s.reverbGain.map (·.setTargetAtTime p.reverbMix 0 (1 / 20))
      delayTime := s.delayTime.map (·.setTargetAtTime p.delayTime 0 (1 / 20))
      delayFeedback := s.delayFeedback.map (·.setTargetAtTime p.delayFeedback 0 (1 / 20))
      delayWetGain := s.delayWetGain.map (·.setTargetAtTime p.delayMix 0 (1 / 20)) }
  else s

/-- Embedding of playTestTone() (src/unnamed/part_001 lines 245-261): a
no-op before init or before masterGain exists; otherwise a self-terminating
440 Hz burst at start gain 0.3 is scheduled into the master stage, recorded
here as the (frequency, start gain) pair of the scheduled tone. -/
def Engine.playTestTone (s : Engine) : Engine :=
  if s.contextCreated && s.masterGain.isSome then
    { s with testTones := s.testTones ++ [(440, 3 / 10)] }
  else s

/-- Average of a byte array divided by 128, as in getLevels
(src/unnamed/part_001 lines 286-287).  The analyser arrays always have
frequencyBinCount = 128 entries, so the empty-list division never arises. -/
def byteAvg (data : List ℕ) : ℚ :=
  (data.sum : ℚ) / (data.length : ℚ)

/-- Embedding of getLevels() (src/unnamed/part_001 lines 280-288): before
the analysers exist it returns the zero pair; otherwise it averages the
byte spectra supplied by the analysers. -/
def Engine.getLevels (s : Engine) (dataIn dataOut : List ℕ) : ℚ × ℚ :=
  if s.inputAnalyzerCreated && s.outputAnalyzerCreated then
    (byteAvg dataIn / 128, byteAvg dataOut / 128)
  else (0, 0)

/-- Events of the setInputDevice(deviceId) body
(src/unnamed/part_001 lines 145-168) in execution order. -/
inductive CaptureEvent where
  | disconnectSource
  | stopTracks (id : String)
  | requestCapture (id : String)
  | connectSource (id : String)
deriving DecidableEq, Repr

/-- The event trace of setInputDevice(deviceId)
(src/unnamed/part_001 lines 145-168): the old source node is disconnected
(line 148) and the old capture stream's tracks stopped (line 149) before
getUserMedia requests the new capture (line 152), which is then connected
(line 162). -/
def Engine.setInputDeviceTrace (s : Engine) (id : String) : List CaptureEvent :=
  (if s.sourceNodeCreated then [CaptureEvent.disconnectSource] else [])
    ++ (match s.inputStream with
        | some old => [CaptureEvent.stopTracks old]
        | none => [])
    ++ [CaptureEvent.requestCapture id, CaptureEvent.connectSource id]

/-- The capture streams held by the engine before a setInputDevice call:
the class holds at most the one stream in its inputStream field. -/
def Engine.heldCaptures (s : Engine) : List String :=
  match s.inputStream with
  | some id => [id]
  | none => []

/-- How one trace event changes the set of live capture streams:
stopping a stream's tracks releases it, getUserMedia acquires one. -/
def captureStep (active : List String) : CaptureEvent → List String
  | CaptureEvent.stopTracks id => active.filter (· ≠ id)
  | CaptureEvent.requestCapture id => active ++ [id]
  | _ => active

/-- Live capture streams after a run of trace events. -/
def activeCaptures (start : List String) (evs : List CaptureEvent) : List String :=
  evs.foldl captureStep start

/-- The monitor-gain target setMonitoringEnabled derives from the stored
flag and the active mechanism (src/unnamed/part_001 line 235). -/
def monitorGainTargetFor (enabled viaContext : Bool) : ℚ :=
  if enabled && viaContext then 1 else 0

/-- The legacy monitor element muted flag setMonitoringEnabled derives from
the stored flag and the active mechanism (src/unnamed/part_001 line 240). -/
def monitorMutedFor (enabled viaContext : Bool) : Bool :=
  !enabled || viaContext

/-- Clamping applied by the Knob UI control to every committed value,
`Math.max(min, Math.min(max, v))` (src/components/Knob.tsx lines 59
and 108). -/
def knobClamp (lo hi v : ℚ) : ℚ :=
  max lo (min hi v)

/-- A concrete browser environment for witness evaluation: 48 kHz hardware
rate, a constant Math.random stream, every sink mechanism supported. -/
def env0 : Env where
  sampleRate := 48000
  rand := fun _ => 1 / 2
  contextSinkSupported := true
  monitorContextSinkSupported := true
  outputElemSinkSupported := true
  monitorElemSinkSupported := true

/-- A browser exposing no direct context retarget, so every role falls back
to the legacy element mechanism. -/
def envLegacy : Env :=
  { env0 with contextSinkSupported := false, monitorContextSinkSupported := false }

/-- The engine right after init() in the env0 browser. -/
def engineReady : Engine :=
  initialEngine.init env0

/-- A concrete full parameter snapshot. -/
def pDefault : EffectParams where
  reverbMix := 0
  reverbDecay := 2
  delayTime := 1 / 4
  delayFeedback := 3 / 10
  delayMix := 0
  masterGain := 1
  inputGain := 1
  inputGain2 := 1
  inputPan := 0
  inputPan2 := 0
  inputChannelMode := .mix
  inputChannelMode2 := .mix
  isMuted := false
  monitoringEnabled := false

/-- A snapshot whose delayFeedback is 3/2, outside [0, 1). -/
def badFeedbackSnapshot : EffectParams :=
  { pDefault with delayFeedback := 3 / 2 }

/-- Applying the same setTargetAtTime twice leaves the same final target. -/
theorem map_setTarget_twice (o : Option AudioParam) (t a b : ℚ) :
    ((o.map (·.setTargetAtTime t a b)).map (·.setTargetAtTime t a b)).map (·.target)
      = (o.map (·.setTargetAtTime t a b)).map (·.target) := by
  cases o <;> rfl

/-- C4: immediately after init() completes, the input gain, master gain,
reverb wet gain, delay wet gain, delay feedback gain and monitor gain all
have gain value 0, while the full fixed topology (monitor tap chain, input
fan-out to analyser, dry, reverb and delay branches, delay feedback loop,
master stage, output analyser and its fan-out to the hardware-bound gain
and the stream destination) is already wired. -/
theorem init_arms_gains_at_zero_fully_wired (env : Env) :
    (initialEngine.init env).inputGain.map (·.value) = some 0 ∧
    (initialEngine.init env).masterGain.map (·.value) = some 0 ∧
    (initialEngine.init env).reverbGain.map (·.value) = some 0 ∧
    (initialEngine.init env).delayWetGain.map (·.value) = some 0 ∧
    (initialEngine.init env).delayFeedback.map (·.value) = some 0 ∧
    (initialEngine.init env).monitorGain.map (·.value) = some 0 ∧
    [ (Node.monitorGain, Node.monitorDestination)
    , (Node.monitorSourceNode, Node.monitorGain)
    , (Node.inputGain, Node.inputAnalyzer)
    , (Node.inputGain, Node.masterGain)
    , (Node.inputGain, Node.convolver)
    , (Node.convolver, Node.reverbGain)
    , (Node.reverbGain, Node.masterGain)
    , (Node.inputGain, Node.delayNode)
    , (Node.delayNode, Node.delayFeedback)
    , (Node.delayFeedback, Node.delayNode)
    , (Node.delayNode, Node.delayWetGain)
    , (Node.delayWetGain, Node.masterGain)
    , (Node.masterGain, Node.outputAnalyzer)
    , (Node.outputAnalyzer, Node.mainOutputGain)
    , (Node.outputAnalyzer, Node.destinationNode) ] ⊆ (initialEngine.init env).edges := by
  refine ⟨rfl, rfl, rfl, rfl, rfl, rfl, ?_⟩
  intro e he
  simpa [Engine.init, initialEngine, initEdges] using he

/-- C10: before init() has completed (the constructor state, where the
context is null and the graph is not built), getLevels returns the zero
pair and updateParameters, setOutputDevice and playTestTone return without
mutating any state. -/
theorem preinit_operations_are_safe_noops :
    (∀ dataIn dataOut, initialEngine.getLevels dataIn dataOut = (0, 0)) ∧
    (∀ p, initialEngine.updateParameters p = initialEngine) ∧
    (∀ env id, initialEngine.setOutputDevice env id = initialEngine) ∧
    initialEngine.playTestTone = initialEngine := by
  exact ⟨fun _ _ => rfl, fun _ => rfl, fun _ _ => rfl, rfl⟩

/-- C8: updateParameters is idempotent in final smoothing targets — calling
it twice with the same snapshot leaves every automatable stage (input gain,
master gain, reverb wet gain, delay time, delay feedback gain, delay wet
gain) with the same final target as calling it once. -/
theorem updateParameters_idempotent_targets (s : Engine) (p : EffectParams) :
    ((s.updateParameters p).updateParameters p).inputGain.map (·.target)
        = (s.updateParameters p).inputGain.map (·.target) ∧
    ((s.updateParameters p).updateParameters p).masterGain.map (·.target)
        = (s.updateParameters p).masterGain.map (·.target) ∧
    ((s.updateParameters p).updateParameters p).reverbGain.map (·.target)
        = (s.updateParameters p).reverbGain.map (·.target) ∧
    ((s.updateParameters p).updateParameters p).delayTime.map (·.target)
        = (s.updateParameters p).delayTime.map (·.target) ∧
    ((s.updateParameters p).updateParameters p).delayFeedback.map (·.target)
        = (s.updateParameters p).delayFeedback.map (·.target) ∧
    ((s.updateParameters p).updateParameters p).delayWetGain.map (·.target)
        = (s.updateParameters p).delayWetGain.map (·.target) := by
  by_cases hc : s.contextCreated
  · simp only [Engine.updateParameters, hc, if_true]
    exact ⟨map_setTarget_twice .., map_setTarget_twice .., map_setTarget_twice ..,
      map_setTarget_twice .., map_setTarget_twice .., map_setTarget_twice ..⟩
  · simp [Engine.updateParameters, hc]

/-- C5: with isMuted = true, updateParameters drives the master-gain target
to 0 without touching the snapshot's masterGain field, and a subsequent
updateParameters with isMuted = false and the same masterGain restores the
master-gain target to exactly that masterGain value. -/
theorem updateParameters_mute_folds_into_master (s : Engine) (p : EffectParams)
    (hc : s.contextCreated = true) (hg : s.masterGain.isSome = true)
    (hm : p.isMuted = true) :
    (s.updateParameters p).masterGain.map (·.target) = some 0 ∧
    ({ p with isMuted := false }).masterGain = p.masterGain ∧
    ((s.updateParameters p).updateParameters { p with isMuted := false }).masterGain.map
        (·.target) = some p.masterGain := by
  obtain ⟨g, hgg⟩ := Option.isSome_iff_exists.mp hg
  refine ⟨?_, rfl, ?_⟩
  · simp [Engine.updateParameters, hc, hm, hgg, AudioParam.setTargetAtTime]
  · simp [Engine.updateParameters, hc, hm, hgg, AudioParam.setTargetAtTime]

/-- Witness for C5 at a concrete muted snapshot on the initialized engine. -/
theorem updateParameters_mute_folds_into_master_witness :
    (engineReady.updateParameters { pDefault with isMuted := true }).masterGain.map
        (·.target) = some 0 ∧
    ((engineReady.updateParameters { pDefault with isMuted := true }).updateParameters
        { { pDefault with isMuted := true } with isMuted := false }).masterGain.map
        (·.target) = some 1 := by
  have h := updateParameters_mute_folds_into_master engineReady
    { pDefault with isMuted := true } rfl rfl rfl
  exact ⟨h.1, h.2.2⟩

/-- C6 counterexample: a snapshot with delayFeedback = 3/2 ≥ 1 is neither
rejected nor clamped at the engine boundary — updateParameters hands the
feedback gain stage the target 3/2, which does not lie in [0, 1). -/
theorem delayFeedback_applied_unclamped :
    (engineReady.updateParameters badFeedbackSnapshot).delayFeedback.map (·.target)
      = some (3 / 2) ∧ ¬ ((3 : ℚ) / 2 < 1) := by
  refine ⟨rfl, by norm_num⟩

/-- C6 amended: the engine applies delayFeedback unclamped; the [0, 1)
bound is enforced upstream by the UI — every value committed through the
delay feedback knob is clamped to [0, 9/10], so the feedback gain target
produced from any knob-committed snapshot lies in [0, 9/10], hence
below 1. -/
theorem delayFeedback_knob_clamped_below_one (s : Engine) (p : EffectParams) (v : ℚ)
    (hc : s.contextCreated = true) (hg : s.delayFeedback.isSome = true) :
    (s.updateParameters { p with delayFeedback := knobClamp 0 (9 / 10) v }).delayFeedback.map
        (·.target) = some (knobClamp 0 (9 / 10) v) ∧
    0 ≤ knobClamp 0 (9 / 10) v ∧ knobClamp 0 (9 / 10) v < 1 := by
  obtain ⟨g, hgg⟩ := Option.isSome_iff_exists.mp hg
  refine ⟨?_, le_max_left _ _, ?_⟩
  · simp [Engine.updateParameters, hc, hgg, AudioParam.setTargetAtTime]
  · have h1 : min ((9 : ℚ) / 10) v ≤ 9 / 10 := min_le_left _ _
    have h2 : knobClamp 0 (9 / 10) v ≤ 9 / 10 := max_le (by norm_num) h1
    linarith

/-- Witness for the amended C6 with a knob drag to v = 2, clamped to
9/10. -/
theorem delayFeedback_knob_clamped_below_one_witness :
    (engineReady.updateParameters
        { pDefault with delayFeedback := knobClamp 0 (9 / 10) 2 }).delayFeedback.map
        (·.target) = some (knobClamp 0 (9 / 10) 2) ∧
    0 ≤ knobClamp 0 (9 / 10) 2 ∧ knobClamp 0 (9 / 10) 2 < 1 :=
  delayFeedback_knob_clamped_below_one engineReady pDefault 2 rfl rfl

/-- C1: setMonitoringEnabled gates only the path of the currently active
monitor mechanism.  With the direct (context setSinkId) mechanism active,
the monitor gain is driven to 1 or 0 as requested while the legacy monitor
element stays muted; with the legacy fallback mechanism active, the legacy
element's muted flag becomes the negation of enabled while the monitor
gain of the inactive direct mechanism is driven to 0. -/
theorem setMonitoringEnabled_gates_active_mechanism_only (s : Engine) (enabled : Bool)
    (g : AudioParam) (hg : s.monitorGain = some g) :
    (s.isMonitoringViaContext = true →
      (s.setMonitoringEnabled enabled).monitorElemMuted = true ∧
      (s.setMonitoringEnabled enabled).monitorGain.map (·.target)
        = some (if enabled then 1 else 0)) ∧
    (s.isMonitoringViaContext = false →
      (s.setMonitoringEnabled enabled).monitorElemMuted = !enabled ∧
      (s.setMonitoringEnabled enabled).monitorGain.map (·.target) = some 0) := by
  constructor <;> intro hvia <;>
    simp [Engine.setMonitoringEnabled, hg, hvia, AudioParam.setTargetAtTime]

/-- Witness for C1 on the initialized engine, where the direct mechanism is
active: enabling monitoring keeps the legacy monitor element muted and
drives the monitor gain to 1. -/
theorem setMonitoringEnabled_gates_active_mechanism_only_witness :
    (engineReady.setMonitoringEnabled true).monitorElemMuted = true ∧
    (engineReady.setMonitoringEnabled true).monitorGain.map (·.target) = some 1 := by
  have h := (setMonitoringEnabled_gates_active_mechanism_only engineReady true
    (AudioParam.atValue 0) rfl).1 rfl
  exact ⟨h.1, h.2⟩

/-- C2: after any setMonitoringDevice call the monitor path's audibility
state (monitor gain target and legacy monitor element muted flag) is
exactly the state setMonitoringEnabled derives from the stored
monitoringEnabled flag under the newly active mechanism — the switch
re-derives it rather than keeping a stale state. -/
theorem setMonitoringDevice_rederives_monitor_state (s : Engine) (env : Env)
    (id : String) (h : s.monitorContextCreated = true) :
    (s.setMonitoringDevice env id).monitoringEnabled = s.monitoringEnabled ∧
    (s.setMonitoringDevice env id).monitorElemMuted
      = monitorMutedFor s.monitoringEnabled
          (s.setMonitoringDevice env id).isMonitoringViaContext ∧
    ∀ g, s.monitorGain = some g →
      (s.setMonitoringDevice env id).monitorGain.map (·.target)
        = some (monitorGainTargetFor s.monitoringEnabled
            (s.setMonitoringDevice env id).isMonitoringViaContext) := by
  rcases hg : s.monitorGain with _ | g <;>
    cases hm : env.monitorContextSinkSupported <;>
      cases he : env.monitorElemSinkSupported <;>
        refine ⟨?_, ?_, fun g' hg' => ?_⟩ <;>
          simp_all [Engine.setMonitoringDevice, Engine.setMonitoringEnabled,
            monitorMutedFor, monitorGainTargetFor, AudioParam.setTargetAtTime]

/-- Witness for C2: a monitor device switch on the initialized engine in a
direct-mechanism browser leaves the legacy element muted per the stored
(disabled) monitoring flag and the monitor gain targeted at 0. -/
theorem setMonitoringDevice_rederives_monitor_state_witness :
    (engineReady.setMonitoringDevice env0 "monitor-1").monitorElemMuted
      = monitorMutedFor engineReady.monitoringEnabled
          (engineReady.setMonitoringDevice env0 "monitor-1").isMonitoringViaContext ∧
    (engineReady.setMonitoringDevice env0 "monitor-1").monitorGain.map (·.target)
      = some (monitorGainTargetFor engineReady.monitoringEnabled
          (engineReady.setMonitoringDevice env0 "monitor-1").isMonitoringViaContext) := by
  have h := setMonitoringDevice_rederives_monitor_state engineReady env0 "monitor-1" rfl
  exact ⟨h.2.1, h.2.2 (AudioParam.atValue 0) rfl⟩

/-- C3: setOutputDevice attempts the direct context retarget first: when
supported it records the context sink, wires the hardware-bound edge from
the main output gain to the context destination and mutes the legacy
output element; when unsupported it removes every direct edge out of the
main output gain, unmutes the legacy element, and sets the legacy
element's sink to the requested id when the element supports setSinkId. -/
theorem setOutputDevice_direct_then_fallback (s : Engine) (env : Env) (id : String)
    (hc : s.contextCreated = true) (hg : s.mainOutputGain.isSome = true) :
    (env.contextSinkSupported = true →
      (s.setOutputDevice env id).contextSink = some id ∧
      (Node.mainOutputGain, Node.contextDestination) ∈ (s.setOutputDevice env id).edges ∧
      (s.setOutputDevice env id).outputElemMuted = true) ∧
    (env.contextSinkSupported = false →
      (∀ b, (Node.mainOutputGain, b) ∉ (s.setOutputDevice env id).edges) ∧
      (s.setOutputDevice env id).outputElemMuted = false ∧
      (env.outputElemSinkSupported = true →
        (s.setOutputDevice env id).outputElemSink = some id)) := by
  cases he : env.outputElemSinkSupported <;>
    constructor <;> intro hdir <;>
      simp [Engine.setOutputDevice, hc, hg, hdir, he, connect, disconnectAll,
        List.mem_filter]

/-- Witness for C3 on the initialized engine in a direct-mechanism browser:
the retarget succeeds, the hardware edge is wired and the legacy element
muted. -/
theorem setOutputDevice_direct_then_fallback_witness :
    (engineReady.setOutputDevice env0 "out-1").contextSink = some "out-1" ∧
    (Node.mainOutputGain, Node.contextDestination)
      ∈ (engineReady.setOutputDevice env0 "out-1").edges ∧
    (engineReady.setOutputDevice env0 "out-1").outputElemMuted = true :=
  (setOutputDevice_direct_then_fallback engineReady env0 "out-1" rfl rfl).1 rfl

/-- C7: in the setInputDevice execution order, every stop of the previously
held capture stream's tracks (and every disconnect of the previous source
node) happens strictly before the request for the new capture stream, so
along every step of the operation at most one input capture stream is
live. -/
theorem setInputDevice_single_capture (s : Engine) (id : String) :
    (∀ (old : String) (i j : ℕ),
      (s.setInputDeviceTrace id)[i]? = some (CaptureEvent.stopTracks old) →
      (s.setInputDeviceTrace id)[j]? = some (CaptureEvent.requestCapture id) → i < j) ∧
    (∀ (i j : ℕ), (s.setInputDeviceTrace id)[i]? = some CaptureEvent.disconnectSource →
      (s.setInputDeviceTrace id)[j]? = some (CaptureEvent.requestCapture id) → i < j) ∧
    (∀ n, (activeCaptures s.heldCaptures ((s.setInputDeviceTrace id).take n)).length ≤ 1) := by
  refine ⟨fun old' i j hi hj => ?_, fun i j hi hj => ?_, fun n => ?_⟩
  · rcases hs : s.inputStream with _ | old <;> cases hsrc : s.sourceNodeCreated <;>
      simp [Engine.setInputDeviceTrace, hs, hsrc] at hi hj <;>
      obtain ⟨hilt, hival⟩ := List.getElem?_eq_some_iff.mp hi <;>
      obtain ⟨hjlt, hjval⟩ := List.getElem?_eq_some_iff.mp hj <;>
      simp only [List.length_cons, List.length_nil] at hilt hjlt <;>
      interval_cases i <;> interval_cases j <;> simp_all
  · rcases hs : s.inputStream with _ | old <;> cases hsrc : s.sourceNodeCreated <;>
      simp [Engine.setInputDeviceTrace, hs, hsrc] at hi hj <;>
      obtain ⟨hilt, hival⟩ := List.getElem?_eq_some_iff.mp hi <;>
      obtain ⟨hjlt, hjval⟩ := List.getElem?_eq_some_iff.mp hj <;>
      simp only [List.length_cons, List.length_nil] at hilt hjlt <;>
      interval_cases i <;> interval_cases j <;> simp_all
  · rcases hs : s.inputStream with _ | old <;> cases hsrc : s.sourceNodeCreated <;>
      rcases n with _ | _ | _ | _ | n <;>
        simp [Engine.setInputDeviceTrace, Engine.heldCaptures, hs, hsrc,
          activeCaptures, captureStep, List.take_succ_cons, List.take_nil]

/-- C9: the reverb impulse response handed to the convolver at construction
is a 2-channel buffer of length sampleRate × 2 seconds whose samples are
the successive Math.random draws mapped to (-1, 1) and scaled by the
envelope (1 − i/length)^2, the left and right channels consuming disjoint
draws of the random stream; it is computed exactly once — a repeated init
is a no-op and no other engine operation replaces the buffer. -/
theorem impulseResponse_built_once_at_construction (env : Env) (i : ℕ)
    (hi : i < env.sampleRate * 2) :
    (initialEngine.init env).convolverBuffer.map (·.numberOfChannels) = some 2 ∧
    (initialEngine.init env).convolverBuffer.map (·.length)
      = some (env.sampleRate * 2) ∧
    (initialEngine.init env).convolverBuffer.map (·.channel0 i)
      = some ((env.rand (2 * i) * 2 - 1)
          * (1 - (i : ℚ) / ((env.sampleRate * 2 : ℕ) : ℚ)) ^ 2) ∧
    (initialEngine.init env).convolverBuffer.map (·.channel1 i)
      = some ((env.rand (2 * i + 1) * 2 - 1)
          * (1 - (i : ℚ) / ((env.sampleRate * 2 : ℕ) : ℚ)) ^ 2) ∧
    (∀ env2, (initialEngine.init env).init env2 = initialEngine.init env) ∧
    (∀ p, ((initialEngine.init env).updateParameters p).convolverBuffer
        = (initialEngine.init env).convolverBuffer) ∧
    (∀ env2 id, ((initialEngine.init env).setOutputDevice env2 id).convolverBuffer
        = (initialEngine.init env).convolverBuffer) ∧
    (∀ env2 id, ((initialEngine.init env).setMonitoringDevice env2 id).convolverBuffer
        = (initialEngine.init env).convolverBuffer) ∧
    (∀ e, ((initialEngine.init env).setMonitoringEnabled e).convolverBuffer
        = (initialEngine.init env).convolverBuffer) ∧
    ((initialEngine.init env).playTestTone.convolverBuffer
        = (initialEngine.init env).convolverBuffer) := by
  refine ⟨rfl, rfl, ?_, ?_, fun env2 => rfl, fun p => rfl, ?_, ?_, fun e => rfl, rfl⟩
  · simp [Engine.init, initialEngine, buildImpulseResponse, impulseEnvelope, hi]
  · simp [Engine.init, initialEngine, buildImpulseResponse, impulseEnvelope, hi]
  · intro env2 id
    cases hdir : env2.contextSinkSupported <;> cases he : env2.outputElemSinkSupported <;>
      simp [Engine.setOutputDevice, Engine.init, initialEngine, hdir, he]
  · intro env2 id
    cases hdir : env2.monitorContextSinkSupported <;>
      cases he : env2.monitorElemSinkSupported <;>
        simp [Engine.setMonitoringDevice, Engine.setMonitoringEnabled, Engine.init,
          initialEngine, hdir, he]

/-- Witness for C9 at sample index 0 of the env0 impulse response. -/
theorem impulseResponse_built_once_at_construction_witness :
    0 < env0.sampleRate * 2 ∧
    (initialEngine.init env0).convolverBuffer.map (·.channel0 0)
      = some ((env0.rand (2 * 0) * 2 - 1)
          * (1 - (0 : ℚ) / ((env0.sampleRate * 2 : ℕ) : ℚ)) ^ 2) :=
  ⟨by decide, (impulseResponse_built_once_at_construction env0 0 (by decide)).2.2.1⟩

end AudioLink
